import Mathlib

/-!
Shallow embedding of the three ROOT macros of this repository:
`GetEntries.C`, `GetEntriesAndEventNr.C` and `GetNumbers.C`.

Each macro opens a file, looks up a `TTree` named `"T"`, and reports the
entry count together with the event number of the first and the last row.
The ROOT framework objects (`TFile`, `TTree`, `TLeaf`, the `DST#Sync`
branch with its `SyncObjectv1` and `EventNumber()` accessor, `Scan`) are
external collaborators; they are modelled here by a persistent table of
rows (`TreeData`) plus the transient in-memory handle state that the read
calls mutate (`TreeState`): `GetEntry i` loads row `i` when `i` is in
range and otherwise leaves the loaded state untouched, a leaf read
returns the value of the currently loaded row (or the unspecified initial
in-memory value when no row was ever loaded), and a successful in-range
`GetEntry` on a tree whose `DST#Sync` branch exists rebinds the sync
pointer to that row's sync object, while a failed binding or an
out-of-range read leaves the pointer as it was (initially null).

Dereferencing a null `TFile*` or null `TTree*` (`f->Get` on a failed
open, `T->GetLeaf` on a missing tree) is undefined behaviour that aborts
the macro; a run is therefore an outcome carrying the lines printed so
far, a crash flag, the file contents after the run, the list of row
indices the run attempted to read, and the produced report.
-/

namespace SphenixMacros

/-- Conversion of a 64-bit entry count to a 32-bit signed `int`, as in
`int nEntries = T->GetEntries();`: reduce modulo `2^32` and reinterpret
the result as signed. -/
def toInt32 (n : Int) : Int :=
  let m := n % 4294967296
  if m < 2147483648 then m else m - 4294967296

/-- Persistent contents of the `TTree` named `"T"`: the entry count, the
presence of the `eventnumber` leaf and its per-row values, the initial
in-memory value of that leaf before any row has been loaded (unspecified
garbage in the source), and the presence of the `DST#Sync` branch with
the per-row `EventNumber()` of its sync object. -/
structure TreeData where
  entries : Nat
  hasEventLeaf : Bool
  eventnumber : Nat → Int
  leafInit : Int
  hasSyncBranch : Bool
  sync : Nat → Int

/-- Transient in-memory state of a `TTree` handle: the persistent
contents, the currently loaded row (none before the first successful
`GetEntry`), and the bound sync pointer (none while null). -/
structure TreeState where
  data : TreeData
  loadedEntry : Option Nat
  syncPtr : Option Int

/-- `T->GetEntry(i)`: load row `i` when `0 <= i < entries`, rebinding the
sync pointer when the `DST#Sync` branch exists; an out-of-range index
(including `-1`) loads nothing and leaves the handle state unchanged. -/
def TreeState.getEntry (s : TreeState) (i : Int) : TreeState :=
  if 0 ≤ i ∧ i < (s.data.entries : Int) then
    { s with
      loadedEntry := some i.toNat
      syncPtr := if s.data.hasSyncBranch then some (s.data.sync i.toNat) else s.syncPtr }
  else s

/-- `l->GetValueLong64()` on the `eventnumber` leaf: the value of the
currently loaded row, or the unspecified initial in-memory value when no
row has ever been loaded. -/
def TreeState.leafValue (s : TreeState) : Int :=
  match s.loadedEntry with
  | some i => s.data.eventnumber i
  | none => s.data.leafInit

/-- A successfully opened `TFile`: `Get("T")` yields the tree when
present. -/
structure OpenedFile where
  tree : Option TreeData

/-- The three integers a console variant reports. -/
structure Report where
  count : Int
  first : Int
  last : Int
deriving DecidableEq, Repr

/-- Observable outcome of one macro run: the lines printed (to the
console, or to `numbers.txt` for `GetNumbers`), whether the run aborted
(null dereference), the file contents after the run, the row indices
passed to `GetEntry`/`Scan`, the report produced (none when the run
aborted before completing it or, for `GetNumbers`, never forms one), and
whether the `firstEvent`/`lastEvent` assignment statements executed. -/
structure RunOutcome where
  output : List String
  crashed : Bool
  finalFile : Option OpenedFile
  reads : List Int
  report : Option Report
  firstAssigned : Bool
  lastAssigned : Bool

/-- Console line `"Getting events for <file>"`. -/
def gettingLine (file : String) : String := "Getting events for " ++ file

/-- Console line `"Number of Entries: <n>"`. -/
def entriesLine (n : Int) : String := "Number of Entries: " ++ toString n

/-- Console line `"First event number: <f>"`. -/
def firstLine (n : Int) : String := "First event number: " ++ toString n

/-- Console line `"Last event number: <l>"`. -/
def lastLine (n : Int) : String := "Last event number: " ++ toString n

/-- Embedding of `GetEntries.C`.  After printing the header and the entry
count (stored in an `int`, guarded by `if (T)`), the source calls
`T->GetLeaf("eventnumber")` without any null check on `T`, so a missing
tree crashes the run after two lines.  When the leaf exists, rows `0` and
`nEntries - 1` are loaded and the leaf is read after each load; otherwise
both event numbers keep their `-1` initializers. -/
def GetEntries (file : String) (f : Option OpenedFile) : RunOutcome :=
  match f with
  | none =>
      { output := [gettingLine file], crashed := true, finalFile := none,
        reads := [], report := none, firstAssigned := false, lastAssigned := false }
  | some fd =>
    match fd.tree with
    | none =>
        { output := [gettingLine file, entriesLine (-1)], crashed := true,
          finalFile := some ⟨none⟩, reads := [], report := none,
          firstAssigned := false, lastAssigned := false }
    | some td =>
        let nEntries : Int := toInt32 (td.entries : Int)
        let s0 : TreeState := ⟨td, none, none⟩
        if td.hasEventLeaf then
          let s1 := s0.getEntry 0
          let firstEvent := s1.leafValue
          let s2 := s1.getEntry (nEntries - 1)
          let lastEvent := s2.leafValue
          { output := [gettingLine file, entriesLine nEntries,
                       firstLine firstEvent, lastLine lastEvent],
            crashed := false, finalFile := some ⟨some s2.data⟩,
            reads := [0, nEntries - 1],
            report := some ⟨nEntries, firstEvent, lastEvent⟩,
            firstAssigned := true, lastAssigned := true }
        else
          { output := [gettingLine file, entriesLine nEntries,
                       firstLine (-1), lastLine (-1)],
            crashed := false, finalFile := some ⟨some s0.data⟩,
            reads := [],
            report := some ⟨nEntries, -1, -1⟩,
            firstAssigned := false, lastAssigned := false }

/-- Embedding of `GetEntriesAndEventNr.C`.  The missing-tree case is
fully guarded and prints the `-2` sentinel count with `-1` event numbers.
Otherwise the 64-bit count is printed unconverted, `DST#Sync` is bound,
and rows `0` and `GetEntries() - 1` are loaded, each event number being
assigned only when the sync pointer is non-null after its load. -/
def GetEntriesAndEventNr (file : String) (f : Option OpenedFile) : RunOutcome :=
  match f with
  | none =>
      { output := [gettingLine file], crashed := true, finalFile := none,
        reads := [], report := none, firstAssigned := false, lastAssigned := false }
  | some fd =>
    match fd.tree with
    | none =>
        { output := [gettingLine file, entriesLine (-2), firstLine (-1), lastLine (-1)],
          crashed := false, finalFile := some ⟨none⟩, reads := [],
          report := some ⟨-2, -1, -1⟩, firstAssigned := false, lastAssigned := false }
    | some td =>
        let n : Int := (td.entries : Int)
        let s0 : TreeState := ⟨td, none, none⟩
        let s1 := s0.getEntry 0
        let firstEvent := s1.syncPtr.getD (-1)
        let s2 := s1.getEntry (n - 1)
        let lastEvent := s2.syncPtr.getD (-1)
        { output := [gettingLine file, entriesLine n,
                     firstLine firstEvent, lastLine lastEvent],
          crashed := false, finalFile := some ⟨some s2.data⟩,
          reads := [0, n - 1],
          report := some ⟨n, firstEvent, lastEvent⟩,
          firstAssigned := s1.syncPtr.isSome, lastAssigned := s2.syncPtr.isSome }

/-- Output of `T->Scan("eventnumber","","",1,i)` with `SetScanField(0)`:
one row line when row `i` exists and the `eventnumber` field is known,
nothing otherwise. -/
def scanRow (td : TreeData) (i : Int) : List String :=
  if 0 ≤ i ∧ i < (td.entries : Int) ∧ td.hasEventLeaf then
    ["* " ++ toString i ++ " * " ++ toString (td.eventnumber i.toNat) ++ " *"]
  else []

/-- Embedding of `GetNumbers.C`.  All output is redirected into
`numbers.txt`.  With a tree, the `int`-stored count is printed as
`"nEntries <n>"` followed by one-row scans of `eventnumber` at rows `0`
and `nEntries - 1`; with no tree, a diagnostic line and the three dummy
sentinel lines are printed. -/
def GetNumbers (file : String) (f : Option OpenedFile) : RunOutcome :=
  match f with
  | none =>
      { output := [], crashed := true, finalFile := none,
        reads := [], report := none, firstAssigned := false, lastAssigned := false }
  | some fd =>
    match fd.tree with
    | none =>
        { output := [" ***** T is null, dummy values",
                     "dummyEntries " ++ toString (-1 : Int),
                     "dummyFirst " ++ toString (-1 : Int),
                     "dummyLast " ++ toString (-1 : Int)],
          crashed := false, finalFile := some ⟨none⟩, reads := [],
          report := none, firstAssigned := false, lastAssigned := false }
    | some td =>
        let nEntries : Int := toInt32 (td.entries : Int)
        { output := ("nEntries " ++ toString nEntries)
                      :: (scanRow td 0 ++ scanRow td (nEntries - 1)),
          crashed := false, finalFile := some ⟨some td⟩,
          reads := [0, nEntries - 1],
          report := none, firstAssigned := false, lastAssigned := false }

/-- The exact four-line console report shape shared by the two console
variants. -/
def consoleShape (file : String) (out : List String) : Prop :=
  ∃ n fst lst : Int,
    out = [gettingLine file, entriesLine n, firstLine fst, lastLine lst]

/-- An event number printed by a console variant is either the `-1`
sentinel or was assigned from the file: a report never pairs a value read
from the file with a sentinel left in place on the other side. -/
def sentinelUnlessAssigned (o : RunOutcome) : Bool :=
  match o.report with
  | some r => (o.firstAssigned || (r.first == -1)) && (o.lastAssigned || (r.last == -1))
  | none => true

/-- Spec example table: `"T"` with 3 rows and identifier values
`[101, 102, 103]`, readable through both the `eventnumber` leaf and the
`DST#Sync` branch. -/
def sampleTable : TreeData :=
  ⟨3, true, fun i => 101 + (i : Int), 0, true, fun i => 101 + (i : Int)⟩

/-- A tree with 0 rows whose `eventnumber` leaf exists; the initial
in-memory leaf value happens to be `7`. -/
def emptyTable : TreeData :=
  ⟨0, true, fun _ => 0, 7, true, fun _ => 0⟩

/-- A tree with `2^31` rows, identifier value `i` at row `i`. -/
def hugeTable : TreeData :=
  ⟨2147483648, true, fun i => (i : Int), 0, true, fun i => (i : Int)⟩

/-- A tree with `2^31` rows and no identifier field at all. -/
def hugeTableNoLeaf : TreeData :=
  ⟨2147483648, false, fun _ => 0, 0, false, fun _ => 0⟩

/-- A tree with 5 rows and no identifier field at all. -/
def plainTable : TreeData :=
  ⟨5, false, fun _ => 0, 0, false, fun _ => 0⟩

theorem getEntry_data (s : TreeState) (i : Int) : (s.getEntry i).data = s.data := by
  unfold TreeState.getEntry
  split <;> rfl

theorem getEntry_out_of_range (s : TreeState) (i : Int)
    (h : ¬(0 ≤ i ∧ i < (s.data.entries : Int))) : s.getEntry i = s := by
  unfold TreeState.getEntry
  exact if_neg h

theorem getEntry_loadedEntry_in_range (s : TreeState) (i : Int)
    (h : 0 ≤ i ∧ i < (s.data.entries : Int)) :
    (s.getEntry i).loadedEntry = some i.toNat := by
  unfold TreeState.getEntry
  rw [if_pos h]

theorem getEntry_syncPtr_in_range (s : TreeState) (i : Int)
    (h : 0 ≤ i ∧ i < (s.data.entries : Int)) :
    (s.getEntry i).syncPtr =
      if s.data.hasSyncBranch then some (s.data.sync i.toNat) else s.syncPtr := by
  unfold TreeState.getEntry
  rw [if_pos h]

theorem getEntry_syncPtr_no_branch (s : TreeState) (i : Int)
    (h : s.data.hasSyncBranch = false) : (s.getEntry i).syncPtr = s.syncPtr := by
  unfold TreeState.getEntry
  split
  · simp [h]
  · rfl

theorem leafValue_of_loaded (s : TreeState) (k : Nat) (h : s.loadedEntry = some k) :
    s.leafValue = s.data.eventnumber k := by
  unfold TreeState.leafValue
  rw [h]

theorem toInt32_of_lt {n : Int} (h0 : 0 ≤ n) (h : n < 2147483648) : toInt32 n = n := by
  have hm : n % 4294967296 = n := Int.emod_eq_of_lt h0 (by omega)
  simp [toInt32, hm, h]

theorem isSome_or_getD (o : Option Int) : (o.isSome || (o.getD (-1) == -1)) = true := by
  cases o <;> simp

theorem finalFile_frame (file : String) (f : Option OpenedFile) :
    (GetEntries file f).finalFile = f ∧
    (GetEntriesAndEventNr file f).finalFile = f ∧
    (GetNumbers file f).finalFile = f := by
  obtain _ | fd := f
  · exact ⟨rfl, rfl, rfl⟩
  obtain ⟨_ | td⟩ := fd
  · exact ⟨rfl, rfl, rfl⟩
  refine ⟨?_, ?_, rfl⟩
  · simp only [GetEntries]
    split
    · simp [getEntry_data]
    · rfl
  · simp only [GetEntriesAndEventNr]
    simp [getEntry_data]

/-- Claim C2: a file that opens but has no tree named `"T"` is recovered
locally in the `GetEntriesAndEventNr` and `GetNumbers` variants, which
print their full sentinel reports; but the `GetEntries` variant
dereferences the null tree in `T->GetLeaf("eventnumber")` and aborts
after only two lines, so there the missing table is fatal and no
complete report appears. -/
theorem C2_missing_table_crashes_GetEntries :
    (GetEntries "dst.root" (some ⟨none⟩)).crashed = true ∧
    (GetEntries "dst.root" (some ⟨none⟩)).output =
      [gettingLine "dst.root", entriesLine (-1)] ∧
    (GetEntriesAndEventNr "dst.root" (some ⟨none⟩)).crashed = false ∧
    (GetEntriesAndEventNr "dst.root" (some ⟨none⟩)).report = some ⟨-2, -1, -1⟩ ∧
    (GetNumbers "dst.root" (some ⟨none⟩)).crashed = false :=
  ⟨rfl, rfl, rfl, rfl, rfl⟩

/-- Claim C3: on a table with 0 rows every variant does attempt to read
row `-1` (`GetEntry(nEntries - 1)`, resp. `Scan` from entry
`nEntries - 1`), and when the `eventnumber` leaf exists the `GetEntries`
variant reports the stale in-memory leaf value (here `7`) instead of the
`-1` sentinel for both the first and the last event number. -/
theorem C3_empty_table_reads_row_minus_one :
    (GetEntries "dst.root" (some ⟨some emptyTable⟩)).reads = [0, -1] ∧
    (GetEntries "dst.root" (some ⟨some emptyTable⟩)).report = some ⟨0, 7, 7⟩ ∧
    (GetEntriesAndEventNr "dst.root" (some ⟨some emptyTable⟩)).reads = [0, -1] ∧
    (GetEntriesAndEventNr "dst.root" (some ⟨some emptyTable⟩)).report = some ⟨0, -1, -1⟩ ∧
    (GetNumbers "dst.root" (some ⟨some emptyTable⟩)).reads = [0, -1] := by
  decide

/-- Claim C7: rerunning any variant on the file contents left behind by a
first run produces exactly the same outcome, hence identical reports: the
report is a function of the file contents alone. -/
theorem C7_second_run_identical (file : String) (f : Option OpenedFile) :
    GetEntries file ((GetEntries file f).finalFile) = GetEntries file f ∧
    GetEntriesAndEventNr file ((GetEntriesAndEventNr file f).finalFile) =
      GetEntriesAndEventNr file f ∧
    GetNumbers file ((GetNumbers file f).finalFile) = GetNumbers file f := by
  obtain ⟨h1, h2, h3⟩ := finalFile_frame file f
  rw [h1, h2, h3]
  exact ⟨rfl, rfl, rfl⟩

/-- Claim C8: every variant is read-only with respect to its input: the
file contents (table and rows) after the run equal the contents before
it, in all cases including the aborting ones. -/
theorem C8_run_preserves_file (file : String) (f : Option OpenedFile) :
    (GetEntries file f).finalFile = f ∧
    (GetEntriesAndEventNr file f).finalFile = f ∧
    (GetNumbers file f).finalFile = f :=
  finalFile_frame file f

/-- Claim C5 (counterexample): on a file that fails to open, the
`GetEntries` console variant does not emit the four report lines — it
aborts after the single header line when the null file handle is
dereferenced. -/
theorem C5_open_failure_cex : ¬consoleShape "dst.root" (GetEntries "dst.root" none).output := by
  unfold consoleShape
  rintro ⟨n, a, b, h⟩
  have hlen := congrArg List.length h
  simp [GetEntries] at hlen

/-- Claim C5 (amended): for every file that opens successfully, the
`GetEntriesAndEventNr` variant emits exactly the four report lines
`Getting events for <file>`, `Number of Entries: <n>`,
`First event number: <f>`, `Last event number: <l>` in that order with
nothing else; the `GetEntries` variant does so whenever the table is
present. -/
theorem C5_console_shape (file : String) (td : TreeData) (ot : Option TreeData) :
    consoleShape file (GetEntries file (some ⟨some td⟩)).output ∧
    consoleShape file (GetEntriesAndEventNr file (some ⟨ot⟩)).output := by
  unfold consoleShape
  constructor
  · simp only [GetEntries]
    split
    · exact ⟨_, _, _, rfl⟩
    · exact ⟨_, _, _, rfl⟩
  · obtain _ | td2 := ot
    · exact ⟨-2, -1, -1, rfl⟩
    · exact ⟨_, _, _, rfl⟩

/-- Claim C9: in both console variants the two event numbers are assigned
together or not at all, and an unassigned event number is reported as the
`-1` sentinel: no report pairs an identifier read from the file with a
sentinel left on the other side. -/
theorem C9_identifiers_assigned_together (file : String) (f : Option OpenedFile) :
    (GetEntries file f).firstAssigned = (GetEntries file f).lastAssigned ∧
    sentinelUnlessAssigned (GetEntries file f) = true ∧
    (GetEntriesAndEventNr file f).firstAssigned = (GetEntriesAndEventNr file f).lastAssigned ∧
    sentinelUnlessAssigned (GetEntriesAndEventNr file f) = true := by
  obtain _ | fd := f
  · exact ⟨rfl, rfl, rfl, rfl⟩
  obtain ⟨_ | td⟩ := fd
  · exact ⟨rfl, rfl, rfl, rfl⟩
  have hgete :
      (GetEntries file (some ⟨some td⟩)).firstAssigned =
        (GetEntries file (some ⟨some td⟩)).lastAssigned ∧
      sentinelUnlessAssigned (GetEntries file (some ⟨some td⟩)) = true := by
    simp only [GetEntries]
    split
    · exact ⟨rfl, rfl⟩
    · exact ⟨rfl, rfl⟩
  have hsync :
      (((⟨td, none, none⟩ : TreeState).getEntry 0).getEntry ((td.entries : Int) - 1)).syncPtr =
        ((⟨td, none, none⟩ : TreeState).getEntry 0).syncPtr ∨
      (((⟨td, none, none⟩ : TreeState).getEntry 0).syncPtr.isSome = true ∧
        (((⟨td, none, none⟩ : TreeState).getEntry 0).getEntry
            ((td.entries : Int) - 1)).syncPtr.isSome = true) := by
    rcases Nat.eq_zero_or_pos td.entries with h0 | hpos
    · left
      apply congrArg TreeState.syncPtr
      apply getEntry_out_of_range
      rw [getEntry_data]
      simp [h0]
    · have hmk : ((⟨td, none, none⟩ : TreeState)).data = td := rfl
      have hin0 : (0 : Int) ≤ 0 ∧ (0 : Int) <
          (((⟨td, none, none⟩ : TreeState)).data.entries : Int) := by
        rw [hmk]
        omega
      have hin1 : (0 : Int) ≤ (td.entries : Int) - 1 ∧ (td.entries : Int) - 1 <
          ((((⟨td, none, none⟩ : TreeState).getEntry 0)).data.entries : Int) := by
        rw [getEntry_data, hmk]
        omega
      cases hb : td.hasSyncBranch
      · left
        apply getEntry_syncPtr_no_branch
        rw [getEntry_data]
        exact hb
      · right
        constructor
        · rw [getEntry_syncPtr_in_range _ _ hin0]
          simp [hb]
        · rw [getEntry_syncPtr_in_range _ _ hin1, getEntry_data]
          simp [hb]
  refine ⟨hgete.1, hgete.2, ?_, ?_⟩
  · simp only [GetEntriesAndEventNr]
    rcases hsync with h | ⟨h1, h2⟩
    · rw [h]
    · rw [h1, h2]
  · simp only [GetEntriesAndEventNr, sentinelUnlessAssigned]
    rw [Bool.and_eq_true]
    exact ⟨isSome_or_getD _, isSome_or_getD _⟩

/-- Claim C1 (counterexample): on a table with `2^31` rows and a readable
identifier field, the `GetEntries` variant reports count `-2^31`, not the
row count `2^31`, because the count is stored in a 32-bit `int`. -/
theorem C1_count_truncated_cex :
    hugeTable.entries = 2147483648 ∧ hugeTable.hasEventLeaf = true ∧
    (GetEntries "dst.root" (some ⟨some hugeTable⟩)).report = some ⟨-2147483648, 0, 0⟩ ∧
    (-2147483648 : Int) ≠ ((2147483648 : Nat) : Int) := by
  decide

/-- Claim C1 (amended): for a table with `N > 0` rows and a readable
identifier field, provided `N < 2^31` (the `GetEntries` variant stores
the count in a 32-bit `int`), both console variants report count `N`,
first = identifier of row `0` and last = identifier of row `N - 1`. -/
theorem C1_report_matches_rows (file : String) (td : TreeData)
    (h1 : 0 < td.entries) (h2 : (td.entries : Int) < 2147483648)
    (hleaf : td.hasEventLeaf = true) (hsync : td.hasSyncBranch = true) :
    (GetEntries file (some ⟨some td⟩)).report =
      some ⟨(td.entries : Int), td.eventnumber 0, td.eventnumber (td.entries - 1)⟩ ∧
    (GetEntriesAndEventNr file (some ⟨some td⟩)).report =
      some ⟨(td.entries : Int), td.sync 0, td.sync (td.entries - 1)⟩ := by
  have hmk : ((⟨td, none, none⟩ : TreeState)).data = td := rfl
  have htr : toInt32 (td.entries : Int) = (td.entries : Int) :=
    toInt32_of_lt (by omega) h2
  have hin0 : (0 : Int) ≤ 0 ∧ (0 : Int) <
      (((⟨td, none, none⟩ : TreeState)).data.entries : Int) := by
    rw [hmk]
    omega
  have hin1 : (0 : Int) ≤ (td.entries : Int) - 1 ∧ (td.entries : Int) - 1 <
      ((((⟨td, none, none⟩ : TreeState).getEntry 0)).data.entries : Int) := by
    rw [getEntry_data, hmk]
    omega
  have hload0 : ((⟨td, none, none⟩ : TreeState).getEntry 0).loadedEntry = some 0 :=
    getEntry_loadedEntry_in_range _ _ hin0
  have hload1 : (((⟨td, none, none⟩ : TreeState).getEntry 0).getEntry
      ((td.entries : Int) - 1)).loadedEntry = some ((td.entries : Int) - 1).toNat :=
    getEntry_loadedEntry_in_range _ _ hin1
  have htn : ((td.entries : Int) - 1).toNat = td.entries - 1 := by omega
  constructor
  · simp only [GetEntries, hleaf, if_true, htr]
    rw [leafValue_of_loaded _ 0 hload0, leafValue_of_loaded _ _ hload1,
      getEntry_data, getEntry_data, getEntry_data, hmk, htn]
  · simp only [GetEntriesAndEventNr]
    rw [getEntry_syncPtr_in_range _ _ hin1, getEntry_data,
      getEntry_syncPtr_in_range _ _ hin0, hmk, hsync]
    simp [htn]

/-- Claim C4 (counterexample): on a table with `2^31` rows and no
identifier field, the `GetEntries` variant reports count `-2^31` with the
`-1` sentinels, not count `N = 2^31`: the 32-bit `int` truncation breaks
the unrestricted `count == N` part of the claim. -/
theorem C4_count_truncated_cex :
    hugeTableNoLeaf.entries = 2147483648 ∧ hugeTableNoLeaf.hasEventLeaf = false ∧
    (GetEntries "dst.root" (some ⟨some hugeTableNoLeaf⟩)).report =
      some ⟨-2147483648, -1, -1⟩ ∧
    (-2147483648 : Int) ≠ ((2147483648 : Nat) : Int) := by
  decide

/-- Claim C4 (amended): for a table with `N` rows whose identifier is
unavailable — no `eventnumber` leaf (Variant A) or a `DST#Sync` branch
that fails to bind (Variant B) — the report is count `N`, first `-1`,
last `-1`, provided `N < 2^31` in the `GetEntries` variant (32-bit `int`
count); the `AndEventNr` variant needs no such bound. -/
theorem C4_missing_identifier_sentinels (file : String) (td : TreeData)
    (h2 : (td.entries : Int) < 2147483648)
    (hleaf : td.hasEventLeaf = false) (hsync : td.hasSyncBranch = false) :
    (GetEntries file (some ⟨some td⟩)).report =
      some ⟨(td.entries : Int), -1, -1⟩ ∧
    (GetEntriesAndEventNr file (some ⟨some td⟩)).report =
      some ⟨(td.entries : Int), -1, -1⟩ := by
  have hmk : ((⟨td, none, none⟩ : TreeState)).data = td := rfl
  have htr : toInt32 (td.entries : Int) = (td.entries : Int) :=
    toInt32_of_lt (by omega) h2
  have hs0 : ((⟨td, none, none⟩ : TreeState).getEntry 0).syncPtr = none := by
    rw [getEntry_syncPtr_no_branch]
    rw [hmk]
    exact hsync
  have hs1 : (((⟨td, none, none⟩ : TreeState).getEntry 0).getEntry
      ((td.entries : Int) - 1)).syncPtr = none := by
    rw [getEntry_syncPtr_no_branch, hs0]
    rw [getEntry_data, hmk]
    exact hsync
  constructor
  · simp only [GetEntries, hleaf, htr]
    rfl
  · simp only [GetEntriesAndEventNr]
    rw [hs0, hs1]
    rfl

/-- Claim C1 (witness): the spec example — 3 rows with identifier values
`[101, 102, 103]` — yields report `(3, 101, 103)` in both console
variants. -/
theorem C1_report_matches_rows_witness :
    0 < sampleTable.entries ∧ (sampleTable.entries : Int) < 2147483648 ∧
    sampleTable.hasEventLeaf = true ∧ sampleTable.hasSyncBranch = true ∧
    (GetEntries "dst.root" (some ⟨some sampleTable⟩)).report = some ⟨3, 101, 103⟩ ∧
    (GetEntriesAndEventNr "dst.root" (some ⟨some sampleTable⟩)).report =
      some ⟨3, 101, 103⟩ := by
  have h := C1_report_matches_rows "dst.root" sampleTable (by decide) (by decide) rfl rfl
  refine ⟨by decide, by decide, rfl, rfl, ?_, ?_⟩
  · rw [h.1]
    decide
  · rw [h.2]
    decide

/-- Claim C4 (witness): a 5-row table with neither identifier access path
yields report `(5, -1, -1)` in both console variants. -/
theorem C4_missing_identifier_sentinels_witness :
    (plainTable.entries : Int) < 2147483648 ∧
    plainTable.hasEventLeaf = false ∧ plainTable.hasSyncBranch = false ∧
    (GetEntries "dst.root" (some ⟨some plainTable⟩)).report = some ⟨5, -1, -1⟩ ∧
    (GetEntriesAndEventNr "dst.root" (some ⟨some plainTable⟩)).report =
      some ⟨5, -1, -1⟩ := by
  have h := C4_missing_identifier_sentinels "dst.root" plainTable (by decide) rfl rfl
  refine ⟨by decide, rfl, rfl, ?_, ?_⟩
  · rw [h.1]
    decide
  · rw [h.2]
    decide

/-- Claim C6 (counterexample): when the table is absent, `numbers.txt`
does not consist of exactly the three dummy lines: the code first prints
the diagnostic line `" ***** T is null, dummy values"`, so four lines
appear. -/
theorem C6_dummy_block_has_extra_line_cex :
    (GetNumbers "dst.root" (some ⟨none⟩)).output ≠
      ["dummyEntries -1", "dummyFirst -1", "dummyLast -1"] := by
  decide

/-- Claim C6 (amended): for a file that opens, `GetNumbers` writes into
`numbers.txt` the line `nEntries <n>` followed by the scan of
`eventnumber` at row `0` and at row `n-1` (stated here for a table with
`0 < N < 2^31` rows and an `eventnumber` field), or, when the table is
absent, the diagnostic line `" ***** T is null, dummy values"` followed
by exactly the three dummy sentinel lines. -/
theorem C6_numbers_txt_contents (file : String) (td : TreeData)
    (h1 : 0 < td.entries) (h2 : (td.entries : Int) < 2147483648)
    (hleaf : td.hasEventLeaf = true) :
    (GetNumbers file (some ⟨some td⟩)).output =
      ["nEntries " ++ toString ((td.entries : Int)),
       "* " ++ toString (0 : Int) ++ " * " ++ toString (td.eventnumber 0) ++ " *",
       "* " ++ toString ((td.entries : Int) - 1) ++ " * " ++
         toString (td.eventnumber (td.entries - 1)) ++ " *"] ∧
    (GetNumbers file (some ⟨none⟩)).output =
      [" ***** T is null, dummy values",
       "dummyEntries -1", "dummyFirst -1", "dummyLast -1"] := by
  have htr : toInt32 (td.entries : Int) = (td.entries : Int) :=
    toInt32_of_lt (by omega) h2
  have htn : ((td.entries : Int) - 1).toNat = td.entries - 1 := by omega
  have hrow0 : scanRow td 0 =
      ["* " ++ toString (0 : Int) ++ " * " ++ toString (td.eventnumber 0) ++ " *"] := by
    unfold scanRow
    rw [if_pos ⟨by omega, by omega, hleaf⟩]
    rfl
  have hrow1 : scanRow td ((td.entries : Int) - 1) =
      ["* " ++ toString ((td.entries : Int) - 1) ++ " * " ++
        toString (td.eventnumber (td.entries - 1)) ++ " *"] := by
    unfold scanRow
    rw [if_pos ⟨by omega, by omega, hleaf⟩, htn]
  constructor
  · simp only [GetNumbers, htr, hrow0, hrow1]
    rfl
  · simp only [GetNumbers]
    decide

/-- Claim C6 (witness): the 3-row sample table produces `numbers.txt`
contents `nEntries 3`, row-0 scan `* 0 * 101 *`, row-2 scan
`* 2 * 103 *`; the no-table case produces the diagnostic plus the three
dummy lines. -/
theorem C6_numbers_txt_contents_witness :
    0 < sampleTable.entries ∧ (sampleTable.entries : Int) < 2147483648 ∧
    sampleTable.hasEventLeaf = true ∧
    (GetNumbers "dst.root" (some ⟨some sampleTable⟩)).output =
      ["nEntries 3", "* 0 * 101 *", "* 2 * 103 *"] ∧
    (GetNumbers "dst.root" (some ⟨none⟩)).output =
      [" ***** T is null, dummy values",
       "dummyEntries -1", "dummyFirst -1", "dummyLast -1"] := by
  have h := C6_numbers_txt_contents "dst.root" sampleTable (by decide) (by decide) rfl
  refine ⟨by decide, by decide, rfl, ?_, h.2⟩
  rw [h.1]
  decide

/-- Claim C10: in the `GetEntries` and `GetNumbers` variants the 64-bit
entry count is stored in a 32-bit signed `int`, so for a table with
`2^31` or more rows the reported count equals the true count reduced
modulo `2^32` and reinterpreted as signed — which differs from the true
count — and the row index used for the last-event read is that truncated
count minus one. -/
theorem C10_count_wraps_mod_2_32 (file : String) (td : TreeData) (N : Nat)
    (hN : td.entries = N) (hbig : 2147483648 ≤ N) (hleaf : td.hasEventLeaf = true) :
    ∃ c : Int,
      c = (if (N : Int) % 4294967296 < 2147483648 then (N : Int) % 4294967296
           else (N : Int) % 4294967296 - 4294967296) ∧
      c ≠ (N : Int) ∧
      (GetEntries file (some ⟨some td⟩)).report.map Report.count = some c ∧
      (GetEntries file (some ⟨some td⟩)).reads = [0, c - 1] ∧
      (GetNumbers file (some ⟨some td⟩)).output.head? =
        some ("nEntries " ++ toString c) ∧
      (GetNumbers file (some ⟨some td⟩)).reads = [0, c - 1] := by
  refine ⟨toInt32 (N : Int), by simp [toInt32], ?_, ?_, ?_, ?_, ?_⟩
  · have hlo : 0 ≤ (N : Int) % 4294967296 :=
      Int.emod_nonneg _ (by norm_num)
    have hhi : (N : Int) % 4294967296 < 4294967296 :=
      Int.emod_lt_of_pos _ (by norm_num)
    simp only [toInt32]
    split <;> omega
  · simp only [GetEntries, hleaf, if_true, hN, Option.map_some']
  · simp only [GetEntries, hleaf, if_true, hN]
  · simp only [GetNumbers, hN, List.head?]
  · simp only [GetNumbers, hN]

/-- Claim C10 (witness): at exactly `2^31` rows the reported count is
`-2^31` and the last-event read targets row `-2^31 - 1`. -/
theorem C10_count_wraps_mod_2_32_witness :
    hugeTable.entries = 2147483648 ∧ 2147483648 ≤ 2147483648 ∧
    hugeTable.hasEventLeaf = true ∧
    (∃ c : Int,
      c = (if ((2147483648 : Nat) : Int) % 4294967296 < 2147483648 then
             ((2147483648 : Nat) : Int) % 4294967296
           else ((2147483648 : Nat) : Int) % 4294967296 - 4294967296) ∧
      c ≠ ((2147483648 : Nat) : Int) ∧
      (GetEntries "dst.root" (some ⟨some hugeTable⟩)).report.map Report.count = some c ∧
      (GetEntries "dst.root" (some ⟨some hugeTable⟩)).reads = [0, c - 1] ∧
      (GetNumbers "dst.root" (some ⟨some hugeTable⟩)).output.head? =
        some ("nEntries " ++ toString c) ∧
      (GetNumbers "dst.root" (some ⟨some hugeTable⟩)).reads = [0, c - 1]) :=
  ⟨rfl, by decide, rfl,
    C10_count_wraps_mod_2_32 "dst.root" hugeTable 2147483648 rfl (by decide) rfl⟩

end SphenixMacros
